import Mathlib

/-!
Verification of the world-generation and voxel-decoding core of OpenTESArena
(`src/OpenTESArena/src/World/LevelData.cpp` and `ExteriorLevelData.cpp`).

Shallow embedding conventions:
* 16-bit legacy voxel codes are `Nat` values; bit operations use `&&&`, `>>>`, `<<<`.
* The layer arrays (`FLOR`, `MAP1`, `MAP2`) are `List Nat`, indexed exactly as the
  C++ does (`element = z + x * gridDepth`); an out-of-range read (undefined behavior
  in the C++) is totalized to `0`, and an out-of-range write is a no-op
  (`List.set` ignores out-of-range indices).
* `ArenaRandom` (`src/OpenTESArena/src/Math/Random.h`) is not among the provided
  source files.  Modelled from the spec: "a linear congruential-style generator
  seeded from 32-bit integers producing reproducible sequences"; since the spec does
  not list the recurrence constants, every generator below is parameterized by an
  arbitrary deterministic step function `step : Nat -> Nat * Nat` mapping the RNG
  state to the drawn value and the successor state.  `ArenaRandom random(seed)`
  followed by `random.next()` is `step seed`.
* C++ loops with no a-priori bound (the `placeBlock` rejection loop and the
  building-name `do/while` retry loop) take an explicit fuel argument; exhausting
  the fuel models the source's nontermination cut-off and performs no write.
-/

namespace OTESA

/-- RNG step function type: state to (drawn value, next state).  Modelled from the
spec: ArenaRandom is a deterministic LCG whose concrete recurrence is not given. -/
def RngStep : Type := Nat → Nat × Nat

/-! ## Voxel definitions (`VoxelData` / `VoxelDefinition` variants used by the
decoders in `LevelData.cpp`). -/

/-- Chasm type (`VoxelData::ChasmData::Type`). -/
inductive ChasmType where
  | dry
  | lava
  | wet
deriving DecidableEq, Repr

/-- Wall type (`VoxelData::WallData::Type`). -/
inductive WallType where
  | solid
  | levelUp
  | levelDown
  | menu
deriving DecidableEq, Repr

/-- The decoded voxel definition variants built by `readFLOR` / `readMAP2`
(`VoxelData::makeFloor`, `VoxelData::makeChasm`, `VoxelData::makeWall`).
The four chasm booleans are the north/east/south/west adjacent-face flags. -/
inductive VoxelData where
  | floor (textureID : Nat)
  | chasm (chasmID : Nat) (north east south west : Bool) (ctype : ChasmType)
  | wall (sideID floorID ceilingID : Int) (menuID : Option Nat) (wtype : WallType)
deriving DecidableEq, Repr

/-- `VoxelGrid::addVoxelData`: append a definition, return its fresh index. -/
def addVoxelData (defs : List VoxelData) (vd : VoxelData) : Nat × List VoxelData :=
  (defs.length, defs ++ [vd])

/-! ## The keyed definition cache

`LevelData.cpp` repeats one pattern four times (`floorDataMappings` in `readFLOR`
lines 898-946, `chasmDataMappings` lines 926-946, `wallDataMappings` in `readMAP1`,
`map2DataMappings` in `readMAP2` lines 1559-1583): linearly search a vector of
(raw key, index) pairs for an exact key match; on a hit return the recorded index;
on a miss call `addVoxelData` on the built definition, record (key, fresh index) at
the end of the vector, and return the fresh index.  The key is the raw 16-bit code,
except for chasms where it is the code paired with the 4-face adjacency bitset. -/

/-- Cache state: the mapping vector and the voxel definition list it indexes. -/
structure CacheState (K : Type) where
  mappings : List (K × Nat)
  voxelDefs : List VoxelData

/-- One cache lookup (`getFlorDataIndex` / `getChasmDataIndex` /
`getDataIndex` / `getMap2DataIndex`): exact-match search, insert-if-absent. -/
def cacheGetIndex {K : Type} [DecidableEq K] (st : CacheState K) (key : K)
    (build : VoxelData) : Nat × CacheState K :=
  match st.mappings.find? (fun p => decide (p.1 = key)) with
  | some p => (p.2, st)
  | none =>
    let fresh := addVoxelData st.voxelDefs build
    (fresh.1, ⟨st.mappings ++ [(key, fresh.1)], fresh.2⟩)

/-- Cache invariant: every recorded index is in range of the definition list, and
recorded keys and recorded indices are both duplicate-free. -/
def CacheInv {K : Type} (st : CacheState K) : Prop :=
  (∀ p ∈ st.mappings, p.2 < st.voxelDefs.length) ∧
    (st.mappings.map Prod.fst).Nodup ∧ (st.mappings.map Prod.snd).Nodup

/-- The chasm cache key: raw FLOR code plus the 4-face adjacency bitset
(`chasmDataMappings` tuples). -/
def ChasmKey : Type := Nat × (Bool × Bool × Bool × Bool)

instance : DecidableEq ChasmKey := by
  unfold ChasmKey
  infer_instance

/-- Floor cache lookup as instantiated by `readFLOR` (key: raw FLOR code). -/
def florCacheGetIndex (st : CacheState Nat) (florVoxel : Nat) (floorTextureID : Nat) :
    Nat × CacheState Nat :=
  cacheGetIndex st florVoxel (VoxelData.floor floorTextureID)

/-- MAP2 cache lookup as instantiated by `readMAP2` lines 1559-1583
(key: raw MAP2 code; definition: solid wall with texture `(code and 0x7F) - 1`). -/
def map2CacheGetIndex (st : CacheState Nat) (map2Voxel : Nat) : Nat × CacheState Nat :=
  let textureIndex : Int := (Int.ofNat (map2Voxel &&& 0x007F)) - 1
  cacheGetIndex st map2Voxel
    (VoxelData.wall textureIndex textureIndex textureIndex none WallType.solid)

/-! ## `readFLOR` per-cell decoding (`LevelData.cpp` lines 1016-1093) -/

/-- Texture ID of a FLOR code: bits 8..15 (`getFloorTextureID`). -/
def getFloorTextureID (voxel : Nat) : Nat :=
  (voxel &&& 0xFF00) >>> 8

/-- Flat index of a FLOR code: low byte (`getFlatIndex`). -/
def getFlatIndex (voxel : Nat) : Nat :=
  voxel &&& 0x00FF

/-- Whether a floor texture ID is one of the three chasm IDs (`isChasm`).
`MIFFile::DRY_CHASM` / `LAVA_CHASM` / `WET_CHASM` are not among the provided source
files, so the three IDs are parameters. -/
def isChasmID (dryID lavaID wetID : Nat) (id : Nat) : Bool :=
  decide (id = dryID) || decide (id = lavaID) || decide (id = wetID)

/-- The voxel definition built for one FLOR cell (`readFLOR` lines 1037-1083):
a non-chasm texture ID yields a Floor definition; a chasm texture ID yields the
matching chasm definition built from the adjacency bitset (`makeDryChasmVoxelData`
etc.; the chasm texture-index lookups from the .INF file are the
`dryChasmID`/`lavaChasmID`/`wetChasmID` parameters).  `none` models the source
writing nothing into the grid, which is unreachable inside the chasm branch. -/
def florCellVoxelData (dryID lavaID wetID : Nat) (dryChasmID lavaChasmID wetChasmID : Nat)
    (florVoxel : Nat) (adj : Bool × Bool × Bool × Bool) : Option VoxelData :=
  let floorTextureID := getFloorTextureID florVoxel
  if ¬ (isChasmID dryID lavaID wetID floorTextureID = true) then
    some (VoxelData.floor floorTextureID)
  else if floorTextureID = dryID then
    some (VoxelData.chasm dryChasmID adj.1 adj.2.1 adj.2.2.1 adj.2.2.2 ChasmType.dry)
  else if floorTextureID = lavaID then
    some (VoxelData.chasm lavaChasmID adj.1 adj.2.1 adj.2.2.1 adj.2.2.2 ChasmType.lava)
  else if floorTextureID = wetID then
    some (VoxelData.chasm wetChasmID adj.1 adj.2.1 adj.2.2.1 adj.2.2.2 ChasmType.wet)
  else
    none

/-- Discriminator: is the definition a Floor variant? -/
def VoxelData.isFloor : VoxelData → Bool
  | VoxelData.floor _ => true
  | _ => false

/-- Discriminator: is the definition a Chasm variant of the given type? -/
def VoxelData.isChasmOf (t : ChasmType) : VoxelData → Bool
  | VoxelData.chasm _ _ _ _ _ ct => decide (ct = t)
  | _ => false

/-! ## `readMAP2` story height (`LevelData.cpp` lines 1539-1557 and 1585-1605) -/

/-- `getMap2VoxelHeight`: number of stories a MAP2 voxel occupies, testing the
`0x80`, `0x8000`, `0x8080` masks in the source's order. -/
def getMap2VoxelHeight (map2Voxel : Nat) : Nat :=
  if map2Voxel &&& 0x80 = 0x80 then 2
  else if map2Voxel &&& 0x8000 = 0x8000 then 3
  else if map2Voxel &&& 0x8080 = 0x8080 then 4
  else 1

/-- The grid levels written for a nonzero MAP2 voxel: `y` from 2 to `height + 1`
(`readMAP2` lines 1599-1602). -/
def map2WriteLevels (map2Voxel : Nat) : List Nat :=
  List.range' 2 (getMap2VoxelHeight map2Voxel)

/-! ## `revisePalaceGraphics` (`ExteriorLevelData.cpp` lines 512-692)

The MAP1 layer is a `List Nat` of 16-bit codes; `getMap1Voxel`/`setMap1Voxel`
address element `z + x * gridDepth` (the source doubles both coordinates and reads
two bytes little-endian, which is the same element on its 16-bit array).  The
coordinates are C++ `int`s, so they are `Int` here; an out-of-range read (undefined
behavior in the source) is totalized to `0` and an out-of-range write to a no-op. -/

/-- Most significant nibble of a 16-bit voxel code. -/
def topNibble (voxel : Nat) : Nat :=
  (voxel &&& 0xF000) >>> 12

/-- `getMap1Voxel` of `revisePalaceGraphics`: direct (not reversed) element read. -/
def map1Get (map1 : List Nat) (gridDepth : Nat) (x z : Int) : Nat :=
  let index : Int := z + x * (gridDepth : Int)
  if 0 ≤ index then map1.getD index.toNat 0 else 0

/-- `setMap1Voxel` of `revisePalaceGraphics`: direct element write. -/
def map1Set (map1 : List Nat) (gridDepth : Nat) (x z : Int) (voxel : Nat) : List Nat :=
  let index : Int := z + x * (gridDepth : Int)
  if 0 ≤ index then map1.set index.toNat voxel else map1

/-- Which grid edge the palace-marker search matched (`SearchResult::Side`). -/
inductive PalaceSide where
  | north
  | south
  | east
  | west
deriving DecidableEq, Repr

/-- Is the voxel at (x, z) a palace block (top nibble 0x9)? -/
def isPalaceBlockAt (map1 : List Nat) (gridDepth : Nat) (x z : Int) : Bool :=
  decide (topNibble (map1Get map1 gridDepth x z) = 0x9)

/-- The perimeter search of `revisePalaceGraphics` (lines 547-589): north/south
edges first (z from 1 to gridDepth-2, north tested before south at each z), then
east/west edges (x from 1 to gridWidth-2); first match wins; `none` is the
`Side::None` no-palace-found case. -/
def findPalaceResult (map1 : List Nat) (gridWidth gridDepth : Nat) :
    Option (PalaceSide × Nat) :=
  match (List.range' 1 (gridDepth - 2)).findSome? (fun (z : Nat) =>
      (if isPalaceBlockAt map1 gridDepth 0 (z : Int) then some (PalaceSide.north, z)
      else if isPalaceBlockAt map1 gridDepth ((gridWidth : Int) - 1) (z : Int) then
        some (PalaceSide.south, z)
      else none : Option (PalaceSide × Nat))) with
  | some r => some r
  | none =>
    (List.range' 1 (gridWidth - 2)).findSome? (fun (x : Nat) =>
      (if isPalaceBlockAt map1 gridDepth (x : Int) 0 then some (PalaceSide.east, x)
      else if isPalaceBlockAt map1 gridDepth (x : Int) ((gridDepth : Int) - 1) then
        some (PalaceSide.west, x)
      else none : Option (PalaceSide × Nat)))

/-- The bounded gate search loop of `getGateDistance` (lines 600-622): starting at
step `i`, with `fuel` steps remaining before the `MAX_GATE_DIST` bound, return the
first step index whose position satisfies `isGate`, else `none` (the `NO_GATE`
result). -/
def gateDistanceFrom (isGate : Nat → Bool) : Nat → Nat → Option Nat
  | 0, _ => none
  | fuel + 1, i => if isGate i then some i else gateDistanceFrom isGate fuel (i + 1)

/-- `getGateDistance`: first step index `i < 8` (`MAX_GATE_DIST`) at which the
probed position holds a gate block (top nibble 0xA), or `none`. -/
def gateDistance (isGate : Nat → Bool) : Option Nat :=
  gateDistanceFrom isGate 8 0

/-- The per-side constants of `revisePalaceGraphics` lines 628-675: the first
palace voxel position, the palace step, the gate search direction, and the three
fixed replacement codes. -/
structure PalaceWriteData where
  firstPalaceVoxel : Int × Int
  palaceStep : Int × Int
  gateDir : Int × Int
  firstPalaceVoxelID : Nat
  secondPalaceVoxelID : Nat
  gateVoxelID : Nat

/-- Per-side write parameters (lines 628-675). -/
def palaceWriteData (gridWidth gridDepth : Nat) (side : PalaceSide) (offset : Nat) :
    PalaceWriteData :=
  match side with
  | PalaceSide.north =>
    { firstPalaceVoxel := ((gridWidth : Int) - 1, (offset : Int))
      palaceStep := (0, -1), gateDir := (-1, 0)
      firstPalaceVoxelID := 0xA5B5, secondPalaceVoxelID := 0xA5B4, gateVoxelID := 0xA1B3 }
  | PalaceSide.south =>
    { firstPalaceVoxel := (0, (offset : Int))
      palaceStep := (0, -1), gateDir := (1, 0)
      firstPalaceVoxelID := 0xA534, secondPalaceVoxelID := 0xA535, gateVoxelID := 0xA133 }
  | PalaceSide.east =>
    { firstPalaceVoxel := ((offset : Int), (gridDepth : Int) - 1)
      palaceStep := (-1, 0), gateDir := (0, -1)
      firstPalaceVoxelID := 0xA574, secondPalaceVoxelID := 0xA575, gateVoxelID := 0xA173 }
  | PalaceSide.west =>
    { firstPalaceVoxel := ((offset : Int), 0)
      palaceStep := (-1, 0), gateDir := (0, 1)
      firstPalaceVoxelID := 0xA5F5, secondPalaceVoxelID := 0xA5F4, gateVoxelID := 0xA1F3 }

/-- `ExteriorLevelData::revisePalaceGraphics`: find a palace marker on the
perimeter, then write the two palace voxels, and -- when the bounded gate search
succeeds on the pre-write map -- the two gate voxels. -/
def revisePalaceGraphics (map1 : List Nat) (gridWidth gridDepth : Nat) : List Nat :=
  match findPalaceResult map1 gridWidth gridDepth with
  | none => map1
  | some sr =>
    let w := palaceWriteData gridWidth gridDepth sr.1 sr.2
    let first := w.firstPalaceVoxel
    let second : Int × Int := (first.1 + w.palaceStep.1, first.2 + w.palaceStep.2)
    let isGate : Nat → Bool := fun i =>
      decide (topNibble (map1Get map1 gridDepth
        (first.1 + (i : Int) * w.gateDir.1) (first.2 + (i : Int) * w.gateDir.2)) = 0xA)
    let gateDist := gateDistance isGate
    let m1 := map1Set map1 gridDepth first.1 first.2 w.firstPalaceVoxelID
    let m2 := map1Set m1 gridDepth second.1 second.2 w.secondPalaceVoxelID
    match gateDist with
    | none => m2
    | some d =>
      let g1 : Int × Int := (first.1 + (d : Int) * w.gateDir.1, first.2 + (d : Int) * w.gateDir.2)
      let g2 : Int × Int := (g1.1 + w.palaceStep.1, g1.2 + w.palaceStep.2)
      let m3 := map1Set m2 gridDepth g1.1 g1.2 w.gateVoxelID
      map1Set m3 gridDepth g2.1 g2.2 w.gateVoxelID

/-! ## `generateWildernessIndices` (`ExteriorLevelData.cpp` lines 694-764)

`Buffer2D` (components/utilities, not in src/) is modelled row-major:
`set(x, y, v)` writes element `x + y * width`, matching the linear
`std::generate` fill over `width * height` elements. -/

/-- The five weighted wilderness block pools (`ExeData::Wilderness`). -/
structure WildBlockLists where
  normalBlocks : List Nat
  villageBlocks : List Nat
  dungeonBlocks : List Nat
  tavernBlocks : List Nat
  templeBlocks : List Nat

/-- The weighted pool choice (lines 707-747): cumulative thresholds
normal 0x6666, village 0x4000, dungeon 0x2666, tavern 0x1999, else temple. -/
def wildBlockListChoice (wildData : WildBlockLists) (randVal : Nat) : List Nat :=
  if randVal < 0x6666 then wildData.normalBlocks
  else
    let r1 := randVal - 0x6666
    if r1 < 0x4000 then wildData.villageBlocks
    else
      let r2 := r1 - 0x4000
      if r2 < 0x2666 then wildData.dungeonBlocks
      else
        let r3 := r2 - 0x2666
        if r3 < 0x1999 then wildData.tavernBlocks
        else wildData.templeBlocks

/-- The `std::generate` fill (lines 703-751): one pool draw and one masked
`and 0xFF` sub-draw per cell.  An empty pool is totalized (`% 0` is undefined
behavior in the source) via `getD` default 0. -/
def wildernessFill (step : RngStep) (wildData : WildBlockLists) :
    Nat → Nat → List Nat × Nat
  | 0, s => ([], s)
  | n + 1, s =>
    let d1 := step s
    let blockList := wildBlockListChoice wildData d1.1
    let d2 := step d1.2
    let v := blockList.getD ((d2.1 &&& 0xFF) % blockList.length) 0
    let rest := wildernessFill step wildData n d2.2
    (v :: rest.1, rest.2)

/-- `ExteriorLevelData::generateWildernessIndices`: fill the 64x64 grid from the
seeded RNG, then overwrite the four center cells (cityX, cityY) = (31, 31) with the
sentinel values 1, 2, 3, 4 (lines 756-761). -/
def generateWildernessIndices (step : RngStep) (wildData : WildBlockLists)
    (wildSeed : Nat) : List Nat :=
  let filled := (wildernessFill step wildData (64 * 64) wildSeed).1
  ((((filled.set (31 + 31 * 64) 1).set (32 + 31 * 64) 2).set
    (31 + 32 * 64) 3).set (32 + 32 * 64) 4)

/-! ## `generateCity` (`ExteriorLevelData.cpp` lines 30-175)

External collaborators are parameters: the city-block template dictionary
(`miscAssets.getCityBlockMifs()` keyed by block code + variation + rotation, here a
function of `(blockIndex, variation, rotationIndex)`), the rotation count
(`MIFUtils::getCityBlockRotationCount()`), and the per-category variation counts
(`MIFUtils::getCityBlockVariations`); none of these are in src/. -/

/-- The `BlockType` enumeration local to `generateCity` (lines 36-40). -/
inductive BlockType where
  | empty
  | reserved
  | equipment
  | magesGuild
  | nobleHouse
  | temple
  | tavern
  | spacer
  | houses
deriving DecidableEq, Repr

/-- The numeric value of the C++ `BlockType` enumerator (declaration order). -/
def blockTypeCode : BlockType → Nat
  | BlockType.empty => 0
  | BlockType.reserved => 1
  | BlockType.equipment => 2
  | BlockType.magesGuild => 3
  | BlockType.nobleHouse => 4
  | BlockType.temple => 5
  | BlockType.tavern => 6
  | BlockType.spacer => 7
  | BlockType.houses => 8

/-- `placeBlock` (lines 48-58): draw `next() % citySize` until the plan cell is
Empty, then claim it.  The source's unbounded rejection loop carries `fuel`;
exhaustion returns the plan unchanged. -/
def placeBlock (step : RngStep) (citySize : Nat) (blockType : BlockType) :
    Nat → List BlockType → Nat → List BlockType × Nat
  | 0, plan, s => (plan, s)
  | fuel + 1, plan, s =>
    let d := step s
    let planIndex := d.1 % citySize
    if plan.getD planIndex BlockType.reserved = BlockType.empty then
      (plan.set planIndex blockType, d.2)
    else
      placeBlock step citySize blockType fuel plan d.2

/-- Reserved-block marking (lines 61-70): out-of-range indices are ignored. -/
def setReservedBlocks (plan : List BlockType) (reservedBlocks : List Nat) :
    List BlockType :=
  reservedBlocks.foldl
    (fun p block => if block < p.length then p.set block BlockType.reserved else p) plan

/-- The five cumulative weighted bands for the remaining empty cells
(lines 86-108). -/
def blockTypeForRand (randVal : Nat) : BlockType :=
  if randVal ≤ 0x7333 then BlockType.houses
  else if randVal ≤ 0xA666 then BlockType.tavern
  else if randVal ≤ 0xCCCC then BlockType.equipment
  else if randVal ≤ 0xE666 then BlockType.temple
  else BlockType.nobleHouse

/-- The weighted fill pass (lines 81-111): one draw selects the band, then
`placeBlock` claims a random empty cell; repeated `emptyCount` times. -/
def fillEmptyBlocks (step : RngStep) (citySize placeFuel : Nat) :
    Nat → List BlockType → Nat → List BlockType × Nat
  | 0, plan, s => (plan, s)
  | n + 1, plan, s =>
    let d := step s
    let bt := blockTypeForRand d.1
    let pb := placeBlock step citySize bt placeFuel plan d.2
    fillEmptyBlocks step citySize placeFuel n pb.1 pb.2

/-- One pre-authored city block template (`MIFFile` first level): dimensions plus
the three layer arrays. -/
structure CityBlock where
  width : Nat
  depth : Nat
  flor : List Nat
  map1 : List Nat
  map2 : List Nat

/-- The three destination layer buffers of `generateCity`. -/
structure CityBuffers where
  flor : List Nat
  map1 : List Nat
  map2 : List Nat
deriving DecidableEq

/-- `writeRow` (lines 151-158): copy `width` source elements starting at
`srcIndex` over the destination starting at `dstIndex`. -/
def writeRow (src : List Nat) (srcIndex width : Nat) (dst : List Nat)
    (dstIndex : Nat) : List Nat :=
  (List.range width).foldl
    (fun d j => d.set (dstIndex + j) (src.getD (srcIndex + j) 0)) dst

/-- Copy one block template into the destination buffers at the given offsets
(lines 146-163). -/
def stampBlock (blk : CityBlock) (xOffset zOffset gridDepth : Nat)
    (bufs : CityBuffers) : CityBuffers :=
  (List.range blk.depth).foldl
    (fun b z =>
      let srcIndex := z * blk.width
      let dstIndex := xOffset + (z + zOffset) * gridDepth
      { flor := writeRow blk.flor srcIndex blk.width b.flor dstIndex
        map1 := writeRow blk.map1 srcIndex blk.width b.map1 dstIndex
        map2 := writeRow blk.map2 srcIndex blk.width b.map2 dstIndex }) bufs

/-- The variation index drawn for one stamped cell (line 126):
`std::max(random.next() % variationCount, 1)`. -/
def cityBlockVariation (randVal variationCount : Nat) : Nat :=
  max (randVal % variationCount) 1

/-- The stamping pass over the plan (lines 113-174): cells are visited in plan
order with `xDim = i % cityDim`, `yDim = i / cityDim`; Reserved cells are skipped;
each other cell draws a rotation and a variation, resolves the template
(`none` = template lookup failure = the source's fatal `DebugCrash`), and copies
its three layers at offset `(startX + xDim * 20, startY + yDim * 20)`. -/
def stampBlocks (step : RngStep) (templates : Int → Nat → Nat → Option CityBlock)
    (rotationCount : Nat) (variationCounts : Int → Nat)
    (gridDepth startX startY cityDim : Nat) :
    List BlockType → Nat → Nat → CityBuffers → Option (CityBuffers × Nat)
  | [], _, s, bufs => some (bufs, s)
  | b :: rest, i, s, bufs =>
    if b = BlockType.reserved then
      stampBlocks step templates rotationCount variationCounts gridDepth startX startY
        cityDim rest (i + 1) s bufs
    else
      let blockIndex : Int := (blockTypeCode b : Int) - 2
      let d1 := step s
      let rotationIndex := d1.1 % rotationCount
      let d2 := step d1.2
      let variation := cityBlockVariation d2.1 (variationCounts blockIndex)
      match templates blockIndex variation rotationIndex with
      | none => none
      | some blk =>
        let xOffset := startX + (i % cityDim) * 20
        let zOffset := startY + (i / cityDim) * 20
        stampBlocks step templates rotationCount variationCounts gridDepth startX startY
          cityDim rest (i + 1) d2.2 (stampBlock blk xOffset zOffset gridDepth bufs)

/-- The plan-construction phase of `generateCity` (lines 45-111): all-empty plan,
reserved marking, the six seeded placements, then the weighted fill of the
remaining empty cells.  Returns the final plan and the RNG state. -/
def cityPlan (step : RngStep) (placeFuel cityDim : Nat) (reservedBlocks : List Nat)
    (s0 : Nat) : List BlockType × Nat :=
  let citySize := cityDim * cityDim
  let plan0 : List BlockType := List.replicate citySize BlockType.empty
  let plan1 := setReservedBlocks plan0 reservedBlocks
  let p2 := placeBlock step citySize BlockType.equipment placeFuel plan1 s0
  let p3 := placeBlock step citySize BlockType.magesGuild placeFuel p2.1 p2.2
  let p4 := placeBlock step citySize BlockType.nobleHouse placeFuel p3.1 p3.2
  let p5 := placeBlock step citySize BlockType.temple placeFuel p4.1 p4.2
  let p6 := placeBlock step citySize BlockType.tavern placeFuel p5.1 p5.2
  let p7 := placeBlock step citySize BlockType.spacer placeFuel p6.1 p6.2
  let emptyCount := (p7.1.filter (fun b => decide (b = BlockType.empty))).length
  fillEmptyBlocks step citySize placeFuel emptyCount p7.1 p7.2

/-- `ExteriorLevelData::generateCity`: build the plan (reserved marking, six seeded
placements, weighted fill of the remaining empty cells), then stamp the templates
into the destination buffers.  Returns the final plan, buffers, and RNG state, or
`none` on template-lookup failure (the source's fatal crash). -/
def generateCity (step : RngStep) (templates : Int → Nat → Nat → Option CityBlock)
    (rotationCount : Nat) (variationCounts : Int → Nat) (placeFuel : Nat)
    (cityDim gridDepth : Nat) (reservedBlocks : List Nat) (startX startY : Nat)
    (s0 : Nat) (bufs : CityBuffers) : Option (List BlockType × CityBuffers × Nat) :=
  let p8 := cityPlan step placeFuel cityDim reservedBlocks s0
  match stampBlocks step templates rotationCount variationCounts gridDepth startX
      startY cityDim p8.1 0 p8.2 bufs with
  | none => none
  | some r => some (p8.1, r.1, r.2)

/-! ## City building names (`generateBuildingNames`, `ExteriorLevelData.cpp`
lines 177-389): the tavern-category pass with hash de-duplication. -/

/-- Result of one successful tavern-name draw. -/
structure TavernDraw where
  m : Nat
  n : Nat
  hash : Nat
  state : Nat

/-- The tavern do/while draw loop (lines 316-322): draw `m = next() % 23`,
`n = next() % 23`, `hash = (m << 8) + n`, retrying while the hash is in `seen`.
The source's unbounded retry carries `fuel`. -/
def tavernHashDraw (step : RngStep) (seen : List Nat) :
    Nat → Nat → Option TavernDraw
  | 0, _ => none
  | fuel + 1, s =>
    let d1 := step s
    let m := d1.1 % 23
    let d2 := step d1.2
    let n := d2.1 % 23
    let hash := (m <<< 8) + n
    if seen.contains hash then tavernHashDraw step seen fuel d2.2
    else some { m := m, n := n, hash := hash, state := d2.2 }

/-- The tavern-category name pass (lines 294-367): voxels are visited in the fixed
scan order; for each voxel matching the target menu type, one de-duplicated hash is
drawn, the entry is recorded, and the hash is appended to `seen`.  A fuel-exhausted
draw (source nontermination) cuts the pass off with no record. -/
def tavernNamesPass (step : RngStep) (matchesP : Nat × Nat → Bool) (fuel : Nat) :
    List (Nat × Nat) → Nat → List Nat → List ((Nat × Nat) × Nat) →
      List ((Nat × Nat) × Nat) × List Nat × Nat
  | [], s, seen, acc => (acc, seen, s)
  | pos :: rest, s, seen, acc =>
    if matchesP pos then
      match tavernHashDraw step seen fuel s with
      | none => (acc, seen, s)
      | some r =>
        tavernNamesPass step matchesP fuel rest r.state (seen ++ [r.hash])
          (acc ++ [(pos, r.hash)])
    else
      tavernNamesPass step matchesP fuel rest s seen acc

/-- The scan order of the city name pass (lines 361-367): x descending from
`gridWidth - 1`, z descending from `gridDepth - 1`. -/
def cityScanOrder (gridWidth gridDepth : Nat) : List (Nat × Nat) :=
  ((List.range gridWidth).reverse).flatMap
    (fun x => ((List.range gridDepth).reverse).map (fun z => (x, z)))

/-! ## Wilderness chunk building names (`generateWildChunkBuildingNames`,
`ExteriorLevelData.cpp` lines 391-510)

Every voxel examined constructs `ArenaRandom random(wildChunkSeed)` afresh
(line 442), so the drawn name indices depend only on the chunk seed and menu type.
Display names are composed from the drawn indices via fixed read-only exe tables,
so equal index pairs give equal names. -/

/-- The per-chunk seed (line 398): `(wildY << 16) + wildX`. -/
def wildChunkSeedOf (wildX wildY : Nat) : Nat :=
  (wildY <<< 16) + wildX

/-- Tavern name indices drawn from a fresh RNG seeded with the chunk seed
(lines 468-473): `m = next() % 23`, `n = next() % 23`. -/
def wildTavernIndices (step : RngStep) (seed : Nat) : Nat × Nat :=
  let d1 := step seed
  let d2 := step d1.2
  (d1.1 % 23, d2.1 % 23)

/-- Temple name indices drawn from a fresh RNG seeded with the chunk seed
(lines 476-482): `model = next() % 3`, `n = next() % ModelVars[model]` with
`ModelVars = {5, 9, 10}`. -/
def wildTempleIndices (step : RngStep) (seed : Nat) : Nat × Nat :=
  let d1 := step seed
  let model := d1.1 % 3
  let vars := [5, 9, 10].getD model 0
  let d2 := step d1.2
  (model, d2.1 % vars)

/-- The destination grid point for chunk-local voxel (x, z) (lines 445-450), with
`RMDFile::WIDTH = RMDFile::DEPTH = 64`. -/
def wildDstPoint (wildX wildY x z : Nat) : Int × Int :=
  (((64 - 1 : Int) - (wildY : Int)) * 64 + ((64 - 1 : Int) - (x : Int)),
   ((64 - 1 : Int) - (wildX : Int)) * 64 + ((64 - 1 : Int) - (z : Int)))

/-- The chunk-local voxel traversal (lines 491-497): x then z over 64 x 64. -/
def chunkVoxelList : List (Nat × Nat) :=
  (List.range 64).flatMap (fun x => (List.range 64).map (fun z => (x, z)))

/-- One chunk + one menu type of `generateWildChunkBuildingNames`: every voxel
whose destination point matches the target menu type (the `matches` predicate
reads the decoded voxel grid) records its destination point and the name index
pair drawn from a fresh chunk-seeded RNG. -/
def wildChunkNamesPass (step : RngStep) (matchesP : Int × Int → Bool)
    (isTavern : Bool) (wildX wildY : Nat) : List ((Int × Int) × (Nat × Nat)) :=
  chunkVoxelList.filterMap (fun xz =>
    let dst := wildDstPoint wildX wildY xz.1 xz.2
    if matchesP dst then
      some (dst,
        if isTavern then wildTavernIndices step (wildChunkSeedOf wildX wildY)
        else wildTempleIndices step (wildChunkSeedOf wildX wildY))
    else none)

/-! ## Concrete inputs used to exercise the theorems -/

/-- A concrete 4x4 MAP1 grid: its single top-nibble-0x9 palace marker sits on the
north edge (x = 0) at offset z = 1 (element index 1), and it carries no
top-nibble-0xA gate marker anywhere. -/
def palaceExampleMap1 : List Nat :=
  [0, 0x9000, 0, 0, 0, 0, 0, 0, 0, 0, 0, 0, 0, 0, 0, 0]

/-- The same grid with a top-nibble-0xA gate marker at (x, z) = (2, 1)
(element index 9), one step inward from the first palace voxel. -/
def palaceExampleMap1Gate : List Nat :=
  [0, 0x9000, 0, 0, 0, 0, 0, 0, 0, 0xA000, 0, 0, 0, 0, 0, 0]

/-- A trivial concrete RNG step (counting state, drawing the state itself). -/
def exampleStep : RngStep := fun s => (s, s + 1)

/-- A trivial concrete city-block template table: a 1x1 block of zeros for any
request. -/
def exampleTemplates : Int → Nat → Nat → Option CityBlock :=
  fun _ _ _ => some { width := 1, depth := 1, flor := [0], map1 := [0], map2 := [0] }

/-! # Shared helper lemmas -/

theorem getD_set_self_of_lt {α : Type} (l : List α) (i : Nat) (a d : α)
    (h : i < l.length) : (l.set i a).getD i d = a := by
  simp [List.getD_eq_getElem?_getD, List.getElem?_set_self h]

theorem getD_set_ne {α : Type} (l : List α) (i j : Nat) (a d : α) (h : i ≠ j) :
    (l.set i a).getD j d = l.getD j d := by
  simp [List.getD_eq_getElem?_getD, List.getElem?_set_ne h]

/-- `findSome?` returns the image of the unique element on which `f` fires. -/
theorem findSome?_eq_of_unique {α β : Type} (f : α → Option β) (l : List α) (k : α)
    (r : β) (hmem : k ∈ l) (hk : f k = some r)
    (hother : ∀ z ∈ l, z ≠ k → f z = none) : l.findSome? f = some r := by
  induction l with
  | nil => cases hmem
  | cons a t ih =>
    rw [List.findSome?_cons]
    by_cases ha : a = k
    · subst ha
      rw [hk]
    · rw [hother a (List.mem_cons_self a t) ha]
      show List.findSome? f t = some r
      rcases List.mem_cons.mp hmem with hak | ht
      · exact absurd hak.symm ha
      · exact ih ht (fun z hz hne => hother z (List.mem_cons_of_mem a hz) hne)

/-- The bounded while-loop search returns the least index satisfying `p`. -/
theorem gateDistanceFrom_eq_some (p : Nat → Bool) (fuel : Nat) :
    ∀ i d, i ≤ d → d < i + fuel → p d = true →
      (∀ j, i ≤ j → j < d → p j = false) → gateDistanceFrom p fuel i = some d := by
  induction fuel with
  | zero =>
    intro i d h1 h2 _ _
    exfalso
    omega
  | succ fuel ih =>
    intro i d h1 h2 hp hmin
    unfold gateDistanceFrom
    rcases Nat.eq_or_lt_of_le h1 with heq | hlt
    · subst heq
      simp [hp]
    · have hpi : p i = false := hmin i le_rfl hlt
      simp only [hpi, Bool.false_eq_true, if_false]
      exact ih (i + 1) d (by omega) (by omega) hp (fun j hj1 hj2 => hmin j (by omega) hj2)

/-- Soundness of the bounded while-loop search: a returned index is in range,
satisfies `p`, and is the least such index. -/
theorem gateDistanceFrom_some_sound (p : Nat → Bool) (fuel : Nat) :
    ∀ i d, gateDistanceFrom p fuel i = some d →
      i ≤ d ∧ d < i + fuel ∧ p d = true ∧ ∀ j, i ≤ j → j < d → p j = false := by
  induction fuel with
  | zero =>
    intro i d h
    simp [gateDistanceFrom] at h
  | succ fuel ih =>
    intro i d h
    unfold gateDistanceFrom at h
    by_cases hpi : p i = true
    · rw [hpi] at h
      simp only [if_true] at h
      obtain rfl : i = d := by injection h
      exact ⟨le_rfl, by omega, hpi, fun j hj1 hj2 => absurd hj2 (by omega)⟩
    · have hpf : p i = false := by
        revert hpi
        cases p i <;> simp
      rw [hpf] at h
      simp only [Bool.false_eq_true, if_false] at h
      obtain ⟨h1, h2, h3, h4⟩ := ih (i + 1) d h
      refine ⟨by omega, by omega, h3, fun j hj1 hj2 => ?_⟩
      rcases Nat.eq_or_lt_of_le hj1 with heq | hlt
      · rw [← heq]
        exact hpf
      · exact h4 j (by omega) hj2

/-- The wilderness fill always produces exactly `n` cells. -/
theorem wildernessFill_length (step : RngStep) (wildData : WildBlockLists) :
    ∀ n s, ((wildernessFill step wildData n s).1).length = n := by
  intro n
  induction n with
  | zero => intro s; rfl
  | succ n ih =>
    intro s
    simp [wildernessFill, ih]

/-! # Claim theorems -/

/-- C10: for every 16-bit MAP2 code, the story height computed by `readMAP2` is 1,
2, or 3 and never 4; the `0x8080` branch is unreachable because any code with both
bits `0x80` and `0x8000` set already satisfies the `0x80` test; hence a nonzero
MAP2 voxel writes its definition index into at most three grid levels, all within
y = 2..4. -/
theorem C10_map2_height (map2Voxel : Nat) :
    (getMap2VoxelHeight map2Voxel = 1 ∨ getMap2VoxelHeight map2Voxel = 2 ∨
      getMap2VoxelHeight map2Voxel = 3) ∧
    getMap2VoxelHeight map2Voxel ≠ 4 ∧
    (map2Voxel &&& 0x8080 = 0x8080 → map2Voxel &&& 0x80 = 0x80) ∧
    (map2WriteLevels map2Voxel).length ≤ 3 ∧
    (∀ y ∈ map2WriteLevels map2Voxel, 2 ≤ y ∧ y ≤ 4) := by
  have hmask : map2Voxel &&& 0x8080 = 0x8080 → map2Voxel &&& 0x80 = 0x80 := by
    intro h
    have hc : (0x8080 : Nat) &&& 0x80 = 0x80 := by decide
    have h2 : map2Voxel &&& 0x8080 &&& 0x80 = map2Voxel &&& 0x80 := by
      rw [Nat.and_assoc, hc]
    rw [h] at h2
    exact h2.symm.trans hc
  have hrange : getMap2VoxelHeight map2Voxel = 1 ∨ getMap2VoxelHeight map2Voxel = 2 ∨
      getMap2VoxelHeight map2Voxel = 3 := by
    unfold getMap2VoxelHeight
    split_ifs with h1 h2 h3
    · exact Or.inr (Or.inl rfl)
    · exact Or.inr (Or.inr rfl)
    · exact absurd (hmask h3) h1
    · exact Or.inl rfl
  refine ⟨hrange, by omega, hmask, ?_, ?_⟩
  · unfold map2WriteLevels
    rw [List.length_range']
    omega
  · intro y hy
    unfold map2WriteLevels at hy
    rw [List.mem_range'_1] at hy
    omega

/-- C10 witness: the unreachability implication discharged at the concrete code
0x8080, and the height at that code. -/
theorem C10_map2_height_witness :
    getMap2VoxelHeight 0x8080 = 2 ∧ (0x8080 &&& 0x8080 = 0x8080 → (0x8080 : Nat) &&& 0x80 = 0x80) :=
  ⟨by decide, (C10_map2_height 0x8080).2.2.1⟩

/-- C5 counterexample: the variation index `max(next % variationCount, 1)` is not
drawn uniformly over the category's variation count.  With variation count 4, no
16-bit draw ever selects variation 4, while draw 0 selects variation 1 -- so the
variations of the category are not selected with equal probability. -/
theorem C5_variation_not_uniform_counterexample :
    Finset.filter (fun r => cityBlockVariation r 4 = 4) (Finset.range 65536) = ∅ ∧
    0 ∈ Finset.filter (fun r => cityBlockVariation r 4 = 1) (Finset.range 65536) := by
  constructor
  · rw [Finset.filter_eq_empty_iff]
    intro r _
    have h4 : r % 4 < 4 := Nat.mod_lt r (by norm_num)
    unfold cityBlockVariation
    omega
  · rw [Finset.mem_filter]
    exact ⟨Finset.mem_range.mpr (by norm_num), by decide⟩

/-- C5 (amended): for a positive variation count, every stamped cell's variation
index `max(next % variationCount, 1)` is at least 1 and at most
`max(variationCount - 1, 1)`; moreover both residues 0 and 1 yield index 1, so the
distribution over the RNG draw is not uniform over the variation count. -/
theorem C5_variation_bounds (randVal variationCount : Nat) (h : 1 ≤ variationCount) :
    1 ≤ cityBlockVariation randVal variationCount ∧
    cityBlockVariation randVal variationCount ≤ max (variationCount - 1) 1 ∧
    cityBlockVariation 0 variationCount = 1 ∧
    cityBlockVariation 1 variationCount = 1 := by
  have hm : randVal % variationCount < variationCount := Nat.mod_lt randVal (by omega)
  have h0 : 0 % variationCount = 0 := Nat.zero_mod variationCount
  have h1 : 1 % variationCount ≤ 1 := by
    rcases Nat.eq_or_lt_of_le h with he | hl
    · rw [← he]
      simp
    · rw [Nat.mod_eq_of_lt hl]
  unfold cityBlockVariation
  omega

/-- C5 witness: the amended bounds discharged at draw 5, variation count 4. -/
theorem C5_variation_bounds_witness :
    1 ≤ cityBlockVariation 5 4 ∧ cityBlockVariation 5 4 ≤ max (4 - 1) 1 :=
  ⟨(C5_variation_bounds 5 4 (by norm_num)).1, (C5_variation_bounds 5 4 (by norm_num)).2.1⟩

/-- C4: for every wilderness seed (and for every RNG behavior at all), the 64x64
grid returned by `generateWildernessIndices` carries the sentinel values 1, 2, 3, 4
at the four center cells (31,31), (32,31), (31,32), (32,32) -- elements
31 + 31*64, 32 + 31*64, 31 + 32*64, 32 + 32*64 -- regardless of what the seeded
RNG produced for those cells. -/
theorem C4_wilderness_center (step : RngStep) (wildData : WildBlockLists)
    (wildSeed : Nat) :
    (generateWildernessIndices step wildData wildSeed).getD (31 + 31 * 64) 0 = 1 ∧
    (generateWildernessIndices step wildData wildSeed).getD (32 + 31 * 64) 0 = 2 ∧
    (generateWildernessIndices step wildData wildSeed).getD (31 + 32 * 64) 0 = 3 ∧
    (generateWildernessIndices step wildData wildSeed).getD (32 + 32 * 64) 0 = 4 ∧
    (generateWildernessIndices step wildData wildSeed).length = 64 * 64 := by
  have hlen : ((wildernessFill step wildData (64 * 64) wildSeed).1).length = 64 * 64 :=
    wildernessFill_length step wildData (64 * 64) wildSeed
  unfold generateWildernessIndices
  refine ⟨?_, ?_, ?_, ?_, by simp [hlen]⟩
  · rw [getD_set_ne _ _ _ _ _ (by norm_num), getD_set_ne _ _ _ _ _ (by norm_num),
      getD_set_ne _ _ _ _ _ (by norm_num)]
    exact getD_set_self_of_lt _ _ _ _ (by rw [hlen]; norm_num)
  · rw [getD_set_ne _ _ _ _ _ (by norm_num), getD_set_ne _ _ _ _ _ (by norm_num)]
    exact getD_set_self_of_lt _ _ _ _ (by simp [hlen])
  · rw [getD_set_ne _ _ _ _ _ (by norm_num)]
    exact getD_set_self_of_lt _ _ _ _ (by simp [hlen])
  · exact getD_set_self_of_lt _ _ _ _ (by simp [hlen])

/-- C7: `generateCity` is deterministic -- two runs on equal inputs (same RNG step
function and starting state, same template dictionary, rotation and variation
tables, dimensions, reserved list, start position, and destination buffers)
produce identical plans and identical destination layer contents; the embedding is
a pure function of exactly these arguments, so there is no hidden state. -/
theorem C7_generateCity_deterministic
    (stepA stepB : RngStep) (templatesA templatesB : Int → Nat → Nat → Option CityBlock)
    (rotA rotB : Nat) (varA varB : Int → Nat) (fuelA fuelB dimA dimB gdA gdB : Nat)
    (resA resB : List Nat) (sxA sxB syA syB s0A s0B : Nat) (bufsA bufsB : CityBuffers)
    (h1 : stepA = stepB) (h2 : templatesA = templatesB) (h3 : rotA = rotB)
    (h4 : varA = varB) (h5 : fuelA = fuelB) (h6 : dimA = dimB) (h7 : gdA = gdB)
    (h8 : resA = resB) (h9 : sxA = sxB) (h10 : syA = syB) (h11 : s0A = s0B)
    (h12 : bufsA = bufsB) :
    generateCity stepA templatesA rotA varA fuelA dimA gdA resA sxA syA s0A bufsA =
      generateCity stepB templatesB rotB varB fuelB dimB gdB resB sxB syB s0B bufsB := by
  subst h1 h2 h3 h4 h5 h6 h7 h8 h9 h10 h11 h12
  rfl

/-- C7 witness: determinism discharged at a concrete argument tuple. -/
theorem C7_generateCity_deterministic_witness :
    generateCity exampleStep exampleTemplates 4 (fun _ => 4) 8 2 40 [1] 0 0 0
        { flor := [], map1 := [], map2 := [] } =
      generateCity exampleStep exampleTemplates 4 (fun _ => 4) 8 2 40 [1] 0 0 0
        { flor := [], map1 := [], map2 := [] } :=
  C7_generateCity_deterministic exampleStep exampleStep exampleTemplates
    exampleTemplates 4 4 (fun _ => 4) (fun _ => 4) 8 8 2 2 40 40 [1] [1] 0 0 0 0 0 0
    { flor := [], map1 := [], map2 := [] } { flor := [], map1 := [], map2 := [] }
    rfl rfl rfl rfl rfl rfl rfl rfl rfl rfl rfl rfl

/-- C3: in `readFLOR`, a floor code whose texture ID (bits 8..15) is not one of the
three chasm texture IDs always yields the Floor variant (never a Chasm variant),
and a floor code whose texture ID equals one of the three chasm IDs yields exactly
one of the Dry, Lava, or Wet chasm variants. -/
theorem C3_florCell_variant (dryID lavaID wetID dryChasmID lavaChasmID wetChasmID
    florVoxel : Nat) (adj : Bool × Bool × Bool × Bool) :
    (isChasmID dryID lavaID wetID (getFloorTextureID florVoxel) = false →
      florCellVoxelData dryID lavaID wetID dryChasmID lavaChasmID wetChasmID
          florVoxel adj = some (VoxelData.floor (getFloorTextureID florVoxel))) ∧
    (isChasmID dryID lavaID wetID (getFloorTextureID florVoxel) = true →
      ∃ vd, florCellVoxelData dryID lavaID wetID dryChasmID lavaChasmID wetChasmID
          florVoxel adj = some vd ∧ vd.isFloor = false ∧
        ((vd.isChasmOf ChasmType.dry = true ∧ vd.isChasmOf ChasmType.lava = false ∧
            vd.isChasmOf ChasmType.wet = false) ∨
         (vd.isChasmOf ChasmType.dry = false ∧ vd.isChasmOf ChasmType.lava = true ∧
            vd.isChasmOf ChasmType.wet = false) ∨
         (vd.isChasmOf ChasmType.dry = false ∧ vd.isChasmOf ChasmType.lava = false ∧
            vd.isChasmOf ChasmType.wet = true))) := by
  constructor
  · intro h
    simp only [florCellVoxelData]
    rw [if_pos (by simp [h])]
  · intro h
    simp only [florCellVoxelData]
    rw [if_neg (by simp [h])]
    by_cases hd : getFloorTextureID florVoxel = dryID
    · rw [if_pos hd]
      exact ⟨_, rfl, rfl, Or.inl ⟨rfl, rfl, rfl⟩⟩
    · rw [if_neg hd]
      by_cases hl : getFloorTextureID florVoxel = lavaID
      · rw [if_pos hl]
        exact ⟨_, rfl, rfl, Or.inr (Or.inl ⟨rfl, rfl, rfl⟩)⟩
      · rw [if_neg hl]
        have hw : getFloorTextureID florVoxel = wetID := by
          unfold isChasmID at h
          simp only [Bool.or_eq_true, decide_eq_true_eq] at h
          tauto
        rw [if_pos hw]
        exact ⟨_, rfl, rfl, Or.inr (Or.inr ⟨rfl, rfl, rfl⟩)⟩

/-- C3 witness: both directions discharged at concrete codes (chasm IDs 0xC, 0xD,
0xE): code 0x0100 is a plain floor, code 0x0C00 is exactly a Dry chasm. -/
theorem C3_florCell_variant_witness :
    florCellVoxelData 0xC 0xE 0xD 1 2 3 0x0100 (true, true, true, true) =
      some (VoxelData.floor 1) ∧
    ∃ vd, florCellVoxelData 0xC 0xE 0xD 1 2 3 0x0C00 (true, true, true, true) =
        some vd ∧ vd.isFloor = false ∧
      ((vd.isChasmOf ChasmType.dry = true ∧ vd.isChasmOf ChasmType.lava = false ∧
          vd.isChasmOf ChasmType.wet = false) ∨
       (vd.isChasmOf ChasmType.dry = false ∧ vd.isChasmOf ChasmType.lava = true ∧
          vd.isChasmOf ChasmType.wet = false) ∨
       (vd.isChasmOf ChasmType.dry = false ∧ vd.isChasmOf ChasmType.lava = false ∧
          vd.isChasmOf ChasmType.wet = true)) :=
  ⟨by
    have h := (C3_florCell_variant 0xC 0xE 0xD 1 2 3 0x0100 (true, true, true, true)).1
      (by decide)
    simpa using h,
   (C3_florCell_variant 0xC 0xE 0xD 1 2 3 0x0C00 (true, true, true, true)).2 (by decide)⟩

/-- C9: in the wilderness building-name pass the RNG is re-seeded from the chunk
seed `(wildY << 16) + wildX` afresh for every voxel examined, so any two matching
*MENU voxels of the same menu type inside the same 64x64 wilderness chunk receive
identical generated names (equal prefix/suffix index pairs, hence equal display
names under the fixed exe name tables). -/
theorem C9_wildChunkNames_equal (step : RngStep) (matchesP : Int × Int → Bool)
    (isTavern : Bool) (wildX wildY : Nat) (e1 e2 : (Int × Int) × (Nat × Nat))
    (h1 : e1 ∈ wildChunkNamesPass step matchesP isTavern wildX wildY)
    (h2 : e2 ∈ wildChunkNamesPass step matchesP isTavern wildX wildY) :
    e1.2 = e2.2 := by
  have key : ∀ e ∈ wildChunkNamesPass step matchesP isTavern wildX wildY,
      e.2 = (if isTavern then wildTavernIndices step (wildChunkSeedOf wildX wildY)
             else wildTempleIndices step (wildChunkSeedOf wildX wildY)) := by
    intro e he
    unfold wildChunkNamesPass at he
    rw [List.mem_filterMap] at he
    obtain ⟨a, _, hfa⟩ := he
    simp only [] at hfa
    by_cases hm : matchesP (wildDstPoint wildX wildY a.1 a.2) = true
    · rw [if_pos hm] at hfa
      obtain rfl : (wildDstPoint wildX wildY a.1 a.2,
          if isTavern then wildTavernIndices step (wildChunkSeedOf wildX wildY)
          else wildTempleIndices step (wildChunkSeedOf wildX wildY)) = e := by
        injection hfa
      rfl
    · rw [if_neg hm] at hfa
      cases hfa
  rw [key e1 h1, key e2 h2]

/-- C9 witness: two distinct matching voxels of chunk (0, 0) receive equal tavern
name index pairs. -/
theorem C9_wildChunkNames_equal_witness :
    ((4095, 4095), wildTavernIndices exampleStep (wildChunkSeedOf 0 0)).2 =
      ((4095, 4094), wildTavernIndices exampleStep (wildChunkSeedOf 0 0)).2 :=
  C9_wildChunkNames_equal exampleStep (fun _ => true) true 0 0
    ((4095, 4095), wildTavernIndices exampleStep (wildChunkSeedOf 0 0))
    ((4095, 4094), wildTavernIndices exampleStep (wildChunkSeedOf 0 0))
    (by
      unfold wildChunkNamesPass
      rw [List.mem_filterMap]
      exact ⟨(0, 0), by decide, by rfl⟩)
    (by
      unfold wildChunkNamesPass
      rw [List.mem_filterMap]
      exact ⟨(0, 1), by decide, by rfl⟩)

/-- A successful de-duplicating tavern draw never returns a hash already seen. -/
theorem tavernHashDraw_not_seen (step : RngStep) (seen : List Nat) :
    ∀ fuel s r, tavernHashDraw step seen fuel s = some r →
      seen.contains r.hash = false := by
  intro fuel
  induction fuel with
  | zero =>
    intro s r h
    simp [tavernHashDraw] at h
  | succ fuel ih =>
    intro s r h
    simp only [tavernHashDraw] at h
    split at h
    next hcT => exact ih _ r h
    next hc =>
      injection h with h2
      subst h2
      simpa using hc

/-- Invariant carried through the tavern name pass: if the accumulated entries
have duplicate-free hashes all remembered in `seen`, the final entry list has
duplicate-free hashes. -/
theorem tavernNamesPass_nodup_aux (step : RngStep) (matchesP : Nat × Nat → Bool)
    (fuel : Nat) :
    ∀ (voxels : List (Nat × Nat)) (s : Nat) (seen : List Nat)
      (acc : List ((Nat × Nat) × Nat)),
      (acc.map Prod.snd).Nodup → (∀ h ∈ acc.map Prod.snd, h ∈ seen) →
      (((tavernNamesPass step matchesP fuel voxels s seen acc).1).map Prod.snd).Nodup := by
  intro voxels
  induction voxels with
  | nil =>
    intro s seen acc hnd _
    simpa [tavernNamesPass] using hnd
  | cons pos rest ih =>
    intro s seen acc hnd hsub
    unfold tavernNamesPass
    by_cases hm : matchesP pos = true
    · rw [if_pos hm]
      cases hdraw : tavernHashDraw step seen fuel s with
      | none => simpa using hnd
      | some r =>
        have hnew : seen.contains r.hash = false :=
          tavernHashDraw_not_seen step seen fuel s r hdraw
        have hnotin : r.hash ∉ seen := by
          intro hmem
          simp [hmem] at hnew
        apply ih r.state (seen ++ [r.hash]) (acc ++ [(pos, r.hash)])
        · rw [List.map_append, List.nodup_append]
          refine ⟨hnd, by simp, ?_⟩
          intro a ha hb
          simp only [List.map_cons, List.map_nil, List.mem_cons,
            List.not_mem_nil, or_false] at hb
          subst hb
          exact hnotin (hsub _ ha)
        · intro h hh
          rw [List.map_append] at hh
          rcases List.mem_append.mp hh with hold | hnewm
          · exact List.mem_append_left _ (hsub h hold)
          · simp only [List.map_cons, List.map_nil, List.mem_cons,
              List.not_mem_nil, or_false] at hnewm
            subst hnewm
            exact List.mem_append_right _ (by simp)
    · rw [if_neg hm]
      exact ih s seen acc hnd hsub

/-- C6: within one run of the city building-name pass for one category, no two
recorded building-name entries arise from the same (prefix, suffix) source hash:
a draw that produces an already-recorded hash is retried, and a successful draw is
never in the seen set, so the recorded hash list is duplicate-free. -/
theorem C6_tavernNames_dedup (step : RngStep) (matchesP : Nat × Nat → Bool)
    (fuel : Nat) (voxels : List (Nat × Nat)) (s : Nat) :
    (((tavernNamesPass step matchesP fuel voxels s [] []).1).map Prod.snd).Nodup ∧
    (∀ (seen : List Nat) (fuel2 s2 : Nat) (r : TavernDraw),
      tavernHashDraw step seen fuel2 s2 = some r → seen.contains r.hash = false) :=
  ⟨tavernNamesPass_nodup_aux step matchesP fuel voxels s [] [] (by simp) (by simp),
   fun seen fuel2 s2 r h => tavernHashDraw_not_seen step seen fuel2 s2 r h⟩

/-- C6 witness: the de-duplication facts discharged at a concrete pass (three
matching voxels, counting RNG) and a concrete retry draw. -/
theorem C6_tavernNames_dedup_witness :
    (((tavernNamesPass exampleStep (fun _ => true) 600 [(0, 0), (0, 1), (1, 0)]
        5 [] []).1).map Prod.snd).Nodup ∧
    ((tavernHashDraw exampleStep [1286] 600 5).map (fun r => [1286].contains r.hash) ≠
      some true) := by
  have h := C6_tavernNames_dedup exampleStep (fun _ => true) 600
    [(0, 0), (0, 1), (1, 0)] 5
  refine ⟨h.1, ?_⟩
  cases hd : tavernHashDraw exampleStep [1286] 600 5 with
  | none => simp
  | some r =>
    have hfalse := h.2 [1286] 600 5 r hd
    simp only [List.contains_cons, List.contains_nil, Bool.or_false] at hfalse
    simp only [Option.map_some, ne_eq, Option.some.injEq]
    simpa using hfalse

/-- A `find?` hit on the cache mapping list yields an entry with the searched key. -/
theorem cache_find?_key {K : Type} [DecidableEq K] (mappings : List (K × Nat))
    (key : K) (p : K × Nat)
    (h : mappings.find? (fun q => decide (q.1 = key)) = some p) :
    p.1 = key ∧ p ∈ mappings := by
  have h1 := List.find?_some h
  have h2 := List.mem_of_find?_eq_some h
  rw [decide_eq_true_eq] at h1
  exact ⟨h1, h2⟩

/-- A `find?` miss on the cache mapping list means no entry carries the key. -/
theorem cache_find?_none {K : Type} [DecidableEq K] (mappings : List (K × Nat))
    (key : K) (h : mappings.find? (fun q => decide (q.1 = key)) = none) :
    ∀ p ∈ mappings, p.1 ≠ key := by
  intro p hp
  have := List.find?_eq_none.mp h p hp
  rw [decide_eq_true_eq] at this
  exact this

/-- One cache lookup preserves the cache invariant. -/
theorem cacheGetIndex_preserves_inv {K : Type} [DecidableEq K] (st : CacheState K)
    (key : K) (build : VoxelData) (hInv : CacheInv st) :
    CacheInv (cacheGetIndex st key build).2 := by
  obtain ⟨hbound, hkeys, hidx⟩ := hInv
  cases hf : st.mappings.find? (fun q => decide (q.1 = key)) with
  | some p =>
    simp only [cacheGetIndex, hf]
    exact ⟨hbound, hkeys, hidx⟩
  | none =>
    have hnk := cache_find?_none st.mappings key hf
    simp only [cacheGetIndex, hf, addVoxelData]
    refine ⟨?_, ?_, ?_⟩
    · intro p hp
      rw [List.length_append]
      rcases List.mem_append.mp hp with hold | hnew
      · have := hbound p hold
        simp
        omega
      · simp only [List.mem_cons, List.not_mem_nil, or_false] at hnew
        subst hnew
        simp
    · rw [List.map_append, List.nodup_append]
      refine ⟨hkeys, by simp, ?_⟩
      intro a ha hb
      simp only [List.map_cons, List.map_nil, List.mem_cons, List.not_mem_nil,
        or_false] at hb
      subst hb
      obtain ⟨q, hq, hq2⟩ := List.mem_map.mp ha
      exact hnk q hq hq2
    · rw [List.map_append, List.nodup_append]
      refine ⟨hidx, by simp, ?_⟩
      intro a ha hb
      simp only [List.map_cons, List.map_nil, List.mem_cons, List.not_mem_nil,
        or_false] at hb
      subst hb
      obtain ⟨q, hq, hq2⟩ := List.mem_map.mp ha
      have := hbound q hq
      omega

/-- C2: each of the four legacy-code caches (floor, chasm with adjacency bitset,
wall/MAP1, MAP2 -- all instances of `cacheGetIndex` at their key types) is an
exact-match, insert-if-absent mapping: looking up the same raw key twice within
one level decode yields the same definition index (regardless of the built
definition, so structurally-equal definitions from the same raw key share one
index), a second lookup with a distinct raw key never collides on the first
index, and the cache invariant is maintained. -/
theorem C2_cache_exact_match {K : Type} [DecidableEq K] (st : CacheState K)
    (k1 k2 : K) (b1 b2 b3 : VoxelData) (hInv : CacheInv st) :
    ((cacheGetIndex (cacheGetIndex st k1 b1).2 k1 b2).1 = (cacheGetIndex st k1 b1).1) ∧
    (k1 ≠ k2 →
      (cacheGetIndex (cacheGetIndex st k1 b1).2 k2 b3).1 ≠ (cacheGetIndex st k1 b1).1) ∧
    CacheInv (cacheGetIndex st k1 b1).2 := by
  obtain ⟨hbound, hkeys, hidx⟩ := hInv
  cases hf : st.mappings.find? (fun q => decide (q.1 = k1)) with
  | some p =>
    obtain ⟨hpk, hpmem⟩ := cache_find?_key st.mappings k1 p hf
    have hres : cacheGetIndex st k1 b1 = (p.2, st) := by
      simp only [cacheGetIndex, hf]
    rw [hres]
    refine ⟨?_, ?_, ⟨hbound, hkeys, hidx⟩⟩
    · simp only [cacheGetIndex, hf]
    · intro hne
      cases hf2 : st.mappings.find? (fun q => decide (q.1 = k2)) with
      | some q =>
        obtain ⟨hqk, hqmem⟩ := cache_find?_key st.mappings k2 q hf2
        simp only [cacheGetIndex, hf2]
        intro heq
        have : q = p := List.inj_on_of_nodup_map hidx hqmem hpmem heq
        rw [this] at hqk
        exact hne (hpk ▸ hqk.symm ▸ rfl)
      | none =>
        simp only [cacheGetIndex, hf2, addVoxelData]
        have := hbound p hpmem
        omega
  | none =>
    have hnk := cache_find?_none st.mappings k1 hf
    have hres : cacheGetIndex st k1 b1 =
        (st.voxelDefs.length,
          ⟨st.mappings ++ [(k1, st.voxelDefs.length)], st.voxelDefs ++ [b1]⟩) := by
      simp only [cacheGetIndex, hf, addVoxelData]
    rw [hres]
    have hfind1 : (st.mappings ++ [(k1, st.voxelDefs.length)]).find?
        (fun q => decide (q.1 = k1)) = some (k1, st.voxelDefs.length) := by
      rw [List.find?_append, hf]
      simp
    refine ⟨?_, ?_, ?_⟩
    · simp only [cacheGetIndex, hfind1]
    · intro hne
      cases hfo : st.mappings.find? (fun q => decide (q.1 = k2)) with
      | some q =>
        obtain ⟨hqk, hqmem⟩ := cache_find?_key st.mappings k2 q hfo
        have hfind2 : (st.mappings ++ [(k1, st.voxelDefs.length)]).find?
            (fun q => decide (q.1 = k2)) = some q := by
          rw [List.find?_append, hfo]
          simp
        simp only [cacheGetIndex, hfind2]
        have := hbound q hqmem
        omega
      | none =>
        have hfind2 : (st.mappings ++ [(k1, st.voxelDefs.length)]).find?
            (fun q => decide (q.1 = k2)) = none := by
          rw [List.find?_append, hfo]
          simp [hne]
        simp only [cacheGetIndex, hfind2, addVoxelData]
        simp
    · have := cacheGetIndex_preserves_inv st k1 b1 ⟨hbound, hkeys, hidx⟩
      rw [hres] at this
      exact this

/-- C2 witness: the cache facts discharged on the empty floor cache with raw codes
5 and 7 and concrete floor definitions. -/
theorem C2_cache_exact_match_witness :
    ((cacheGetIndex (cacheGetIndex (⟨[], []⟩ : CacheState Nat) 5 (VoxelData.floor 1)).2
        5 (VoxelData.floor 1)).1 =
      (cacheGetIndex (⟨[], []⟩ : CacheState Nat) 5 (VoxelData.floor 1)).1) ∧
    ((cacheGetIndex (cacheGetIndex (⟨[], []⟩ : CacheState Nat) 5 (VoxelData.floor 1)).2
        7 (VoxelData.floor 2)).1 ≠
      (cacheGetIndex (⟨[], []⟩ : CacheState Nat) 5 (VoxelData.floor 1)).1) := by
  have h := C2_cache_exact_match (⟨[], []⟩ : CacheState Nat) 5 7 (VoxelData.floor 1)
    (VoxelData.floor 1) (VoxelData.floor 2) (by refine ⟨?_, ?_, ?_⟩ <;> simp [CacheInv])
  exact ⟨h.1, h.2.1 (by decide)⟩

/-- Unfolding one step of the reserved-block marking fold. -/
theorem setReservedBlocks_cons (plan : List BlockType) (a : Nat) (rest : List Nat) :
    setReservedBlocks plan (a :: rest) =
      setReservedBlocks
        (if a < plan.length then plan.set a BlockType.reserved else plan) rest := rfl

/-- The marking pass never changes the plan's length. -/
theorem setReservedBlocks_length :
    ∀ (blocks : List Nat) (plan : List BlockType),
      (setReservedBlocks plan blocks).length = plan.length := by
  intro blocks
  induction blocks with
  | nil => intro plan; rfl
  | cons a rest ih =>
    intro plan
    rw [setReservedBlocks_cons]
    by_cases h : a < plan.length
    · rw [if_pos h, ih, List.length_set]
    · rw [if_neg h, ih]

/-- The marking pass keeps already-Reserved cells Reserved. -/
theorem setReservedBlocks_preserves (b : Nat) :
    ∀ (blocks : List Nat) (plan : List BlockType),
      plan.getD b BlockType.empty = BlockType.reserved →
      (setReservedBlocks plan blocks).getD b BlockType.empty = BlockType.reserved := by
  intro blocks
  induction blocks with
  | nil => intro plan h; exact h
  | cons a rest ih =>
    intro plan h
    rw [setReservedBlocks_cons]
    apply ih
    by_cases ha : a < plan.length
    · rw [if_pos ha]
      by_cases hab : a = b
      · subst hab
        rw [getD_set_self_of_lt _ _ _ _ ha]
      · rw [getD_set_ne _ _ _ _ _ hab]
        exact h
    · rw [if_neg ha]
      exact h

/-- An in-range entry of the reserved list marks its plan cell Reserved. -/
theorem setReservedBlocks_marks (b : Nat) :
    ∀ (blocks : List Nat) (plan : List BlockType), b ∈ blocks → b < plan.length →
      (setReservedBlocks plan blocks).getD b BlockType.empty = BlockType.reserved := by
  intro blocks
  induction blocks with
  | nil => intro plan h; cases h
  | cons a rest ih =>
    intro plan hmem hlt
    rw [setReservedBlocks_cons]
    rcases List.mem_cons.mp hmem with rfl | hrest
    · rw [if_pos hlt]
      apply setReservedBlocks_preserves
      rw [getD_set_self_of_lt _ _ _ _ hlt]
    · apply ih _ hrest
      by_cases ha : a < plan.length
      · rw [if_pos ha, List.length_set]
        exact hlt
      · rw [if_neg ha]
        exact hlt

/-- An out-of-range reserved-list entry is ignored: dropping it from anywhere in
the list produces the same plan. -/
theorem setReservedBlocks_ignores_oob (b : Nat) :
    ∀ (pre : List Nat) (plan : List BlockType) (post : List Nat), plan.length ≤ b →
      setReservedBlocks plan (pre ++ b :: post) = setReservedBlocks plan (pre ++ post) := by
  intro pre
  induction pre with
  | nil =>
    intro plan post hb
    simp only [List.nil_append]
    rw [setReservedBlocks_cons, if_neg (by omega)]
  | cons a pre2 ih =>
    intro plan post hb
    simp only [List.cons_append]
    rw [setReservedBlocks_cons, setReservedBlocks_cons]
    apply ih
    by_cases ha : a < plan.length
    · rw [if_pos ha, List.length_set]
      exact hb
    · rw [if_neg ha]
      exact hb

/-- The rejection-sampling placement never overwrites a Reserved cell. -/
theorem placeBlock_preserves_reserved (step : RngStep) (citySize : Nat)
    (bt : BlockType) (b : Nat) :
    ∀ (fuel : Nat) (plan : List BlockType) (s : Nat),
      plan.getD b BlockType.empty = BlockType.reserved →
      ((placeBlock step citySize bt fuel plan s).1).getD b BlockType.empty =
        BlockType.reserved := by
  intro fuel
  induction fuel with
  | zero => intro plan s h; exact h
  | succ fuel ih =>
    intro plan s h
    simp only [placeBlock]
    by_cases hc : plan.getD ((step s).1 % citySize) BlockType.reserved = BlockType.empty
    · rw [if_pos hc]
      have hidx_lt : (step s).1 % citySize < plan.length := by
        by_contra hge
        rw [List.getD_eq_default _ _ (by omega)] at hc
        cases hc
      have hne : (step s).1 % citySize ≠ b := by
        intro heq
        rw [heq] at hc hidx_lt
        rw [List.getD_eq_getElem _ _ hidx_lt] at hc
        rw [List.getD_eq_getElem _ _ hidx_lt] at h
        rw [h] at hc
        cases hc
      exact (getD_set_ne _ _ _ _ _ hne).trans h
    · rw [if_neg hc]
      exact ih plan (step s).2 h

/-- The weighted fill pass never overwrites a Reserved cell. -/
theorem fillEmptyBlocks_preserves_reserved (step : RngStep)
    (citySize placeFuel b : Nat) :
    ∀ (n : Nat) (plan : List BlockType) (s : Nat),
      plan.getD b BlockType.empty = BlockType.reserved →
      ((fillEmptyBlocks step citySize placeFuel n plan s).1).getD b BlockType.empty =
        BlockType.reserved := by
  intro n
  induction n with
  | zero => intro plan s h; exact h
  | succ n ih =>
    intro plan s h
    simp only [fillEmptyBlocks]
    exact ih _ _ (placeBlock_preserves_reserved step citySize _ b placeFuel plan
      (step s).2 h)

/-- An in-range reserved entry is still Reserved in the finished city plan. -/
theorem cityPlan_reserved (step : RngStep) (placeFuel cityDim : Nat)
    (reservedBlocks : List Nat) (s0 b : Nat) (hmem : b ∈ reservedBlocks)
    (hlt : b < cityDim * cityDim) :
    ((cityPlan step placeFuel cityDim reservedBlocks s0).1).getD b BlockType.empty =
      BlockType.reserved := by
  unfold cityPlan
  apply fillEmptyBlocks_preserves_reserved
  apply placeBlock_preserves_reserved
  apply placeBlock_preserves_reserved
  apply placeBlock_preserves_reserved
  apply placeBlock_preserves_reserved
  apply placeBlock_preserves_reserved
  apply placeBlock_preserves_reserved
  apply setReservedBlocks_marks b reservedBlocks _ hmem
  rw [List.length_replicate]
  exact hlt

/-- C8: out-of-range reserved-block indices are ignored without error and leave
the plan unchanged; each in-range entry marks its plan cell Reserved, and the cell
is still Reserved in the finished plan (no placement pass overwrites it); and the
stamping pass skips Reserved cells entirely (no RNG draw, no template resolution,
no buffer write). -/
theorem C8_reserved_blocks (step : RngStep)
    (templates : Int → Nat → Nat → Option CityBlock) (rotationCount : Nat)
    (variationCounts : Int → Nat) (placeFuel cityDim gridDepth startX startY s0 : Nat)
    (reservedBlocks : List Nat) (b : Nat) :
    (∀ (plan : List BlockType) (pre post : List Nat), plan.length ≤ b →
      setReservedBlocks plan (pre ++ b :: post) = setReservedBlocks plan (pre ++ post)) ∧
    (b ∈ reservedBlocks → b < cityDim * cityDim →
      ((cityPlan step placeFuel cityDim reservedBlocks s0).1).getD b BlockType.empty =
        BlockType.reserved) ∧
    (∀ (rest : List BlockType) (i s : Nat) (bufs : CityBuffers),
      stampBlocks step templates rotationCount variationCounts gridDepth startX startY
          cityDim (BlockType.reserved :: rest) i s bufs =
        stampBlocks step templates rotationCount variationCounts gridDepth startX
          startY cityDim rest (i + 1) s bufs) := by
  refine ⟨fun plan pre post hb => setReservedBlocks_ignores_oob b pre plan post hb,
    fun hmem hlt => cityPlan_reserved step placeFuel cityDim reservedBlocks s0 b hmem hlt,
    fun rest i s bufs => ?_⟩
  simp only [stampBlocks]
  rw [if_pos trivial]

/-- C8 witness: the three reserved-block facts discharged at concrete inputs
(a 2x2 plan with reserved list [1, 9]: entry 9 is out of range and ignored, entry
1 stays Reserved in the finished plan, and a Reserved cell is skipped when
stamping). -/
theorem C8_reserved_blocks_witness :
    (setReservedBlocks [BlockType.empty] ([] ++ 9 :: []) =
      setReservedBlocks [BlockType.empty] ([] ++ [])) ∧
    ((cityPlan exampleStep 8 2 [1, 9] 0).1).getD 1 BlockType.empty =
      BlockType.reserved ∧
    stampBlocks exampleStep exampleTemplates 4 (fun _ => 4) 40 0 0 2
        [BlockType.reserved] 0 0 { flor := [], map1 := [], map2 := [] } =
      stampBlocks exampleStep exampleTemplates 4 (fun _ => 4) 40 0 0 2 [] 1 0
        { flor := [], map1 := [], map2 := [] } := by
  have h := C8_reserved_blocks exampleStep exampleTemplates 4 (fun _ => 4) 8 2 40 0 0 0
    [1, 9] 1
  have h9 := C8_reserved_blocks exampleStep exampleTemplates 4 (fun _ => 4) 8 2 40 0 0 0
    [1, 9] 9
  exact ⟨h9.1 [BlockType.empty] [] [] (by norm_num),
    h.2.1 (by norm_num) (by norm_num),
    h.2.2 [] 0 0 { flor := [], map1 := [], map2 := [] }⟩

/-- MAP1 reads at nonnegative coordinates are plain element reads. -/
theorem map1Get_natIdx (map1 : List Nat) (gd x z : Nat) :
    map1Get map1 gd (x : Int) (z : Int) = map1.getD (z + x * gd) 0 := by
  unfold map1Get
  rw [if_pos (by positivity)]
  have h : ((z : Int) + (x : Int) * (gd : Int)).toNat = z + x * gd := by omega
  rw [h]

/-- MAP1 writes at nonnegative coordinates are plain element writes. -/
theorem map1Set_natIdx (map1 : List Nat) (gd x z v : Nat) :
    map1Set map1 gd (x : Int) (z : Int) v = map1.set (z + x * gd) v := by
  unfold map1Set
  rw [if_pos (by positivity)]
  have h : ((z : Int) + (x : Int) * (gd : Int)).toNat = z + x * gd := by omega
  rw [h]

/-- With a unique top-nibble-0x9 marker at north-edge offset `k`, the perimeter
search returns (North, k). -/
theorem findPalaceResult_north (map1 : List Nat) (gw gd k : Nat)
    (hgw : 2 < gw) (hgd : 2 < gd) (hlen : map1.length = gw * gd)
    (hk1 : 1 ≤ k) (hk2 : k ≤ gd - 2)
    (hpal : topNibble (map1.getD k 0) = 0x9)
    (huniq : ∀ j < map1.length, j ≠ k → topNibble (map1.getD j 0) ≠ 0x9) :
    findPalaceResult map1 gw gd = some (PalaceSide.north, k) := by
  have hgd_le : gd ≤ gw * gd := Nat.le_mul_of_pos_left gd (by omega)
  have hnorthGet : ∀ z : Nat, map1Get map1 gd 0 (z : Int) = map1.getD z 0 := by
    intro z
    have h0 : ((0 : Nat) : Int) = (0 : Int) := rfl
    rw [← h0, map1Get_natIdx]
    norm_num
  have hns : (List.range' 1 (gd - 2)).findSome? (fun (z : Nat) =>
      (if isPalaceBlockAt map1 gd 0 (z : Int) then some (PalaceSide.north, z)
      else if isPalaceBlockAt map1 gd ((gw : Int) - 1) (z : Int) then
        some (PalaceSide.south, z)
      else none : Option (PalaceSide × Nat))) = some (PalaceSide.north, k) := by
    apply findSome?_eq_of_unique _ _ k
    · rw [List.mem_range'_1]
      omega
    · have hk : isPalaceBlockAt map1 gd 0 (k : Int) = true := by
        unfold isPalaceBlockAt
        rw [hnorthGet k, hpal]
        decide
      rw [if_pos hk]
    · intro z hz hne
      rw [List.mem_range'_1] at hz
      have hz_lt_len : z < map1.length := by
        rw [hlen]
        omega
      have hnorth : ¬ (isPalaceBlockAt map1 gd 0 (z : Int) = true) := by
        unfold isPalaceBlockAt
        rw [hnorthGet z]
        simp only [decide_eq_true_eq]
        exact huniq z hz_lt_len hne
      have hgw1 : (gw : Int) - 1 = ((gw - 1 : Nat) : Int) := by omega
      have hsouth : ¬ (isPalaceBlockAt map1 gd ((gw : Int) - 1) (z : Int) = true) := by
        unfold isPalaceBlockAt
        rw [hgw1, map1Get_natIdx]
        simp only [decide_eq_true_eq]
        apply huniq
        · rw [hlen]
          have hgd_le2 : gd ≤ (gw - 1) * gd := Nat.le_mul_of_pos_left gd (by omega)
          have hsum : (gw - 1) * gd + gd = gw * gd := by
            have hgw2 : gw - 1 + 1 = gw := by omega
            calc (gw - 1) * gd + gd = (gw - 1 + 1) * gd := by ring
              _ = gw * gd := by rw [hgw2]
          omega
        · have hgd_le2 : gd ≤ (gw - 1) * gd := Nat.le_mul_of_pos_left gd (by omega)
          omega
      rw [if_neg hnorth, if_neg hsouth]
  unfold findPalaceResult
  rw [hns]

/-- Reduction of `revisePalaceGraphics` in the (North, k) case: two palace writes,
then two gate writes when the bounded search on the pre-write map succeeds. -/
theorem revisePalaceGraphics_north_eq (map1 : List Nat) (gw gd k : Nat)
    (hfind : findPalaceResult map1 gw gd = some (PalaceSide.north, k)) :
    revisePalaceGraphics map1 gw gd =
      (match gateDistance (fun i => decide (topNibble (map1Get map1 gd
          ((gw : Int) - 1 - (i : Int)) (k : Int)) = 0xA)) with
       | none =>
         map1Set (map1Set map1 gd ((gw : Int) - 1) (k : Int) 0xA5B5) gd
           ((gw : Int) - 1) ((k : Int) - 1) 0xA5B4
       | some d =>
         map1Set (map1Set (map1Set (map1Set map1 gd ((gw : Int) - 1) (k : Int) 0xA5B5)
             gd ((gw : Int) - 1) ((k : Int) - 1) 0xA5B4) gd
             ((gw : Int) - 1 - (d : Int)) (k : Int) 0xA1B3) gd
             ((gw : Int) - 1 - (d : Int)) ((k : Int) - 1) 0xA1B3) := by
  unfold revisePalaceGraphics
  rw [hfind]
  simp only [palaceWriteData]
  have e1 : ∀ i : Nat, (gw : Int) - 1 + (i : Int) * (-1) = (gw : Int) - 1 - (i : Int) :=
    fun i => by ring
  have e2 : ∀ i : Nat, (k : Int) + (i : Int) * 0 = (k : Int) := fun i => by ring
  have e3 : (gw : Int) - 1 + 0 = (gw : Int) - 1 := by ring
  have e4 : (k : Int) + (-1) = (k : Int) - 1 := by ring
  have e5 : ∀ i : Nat, (gw : Int) - 1 - (i : Int) + 0 = (gw : Int) - 1 - (i : Int) :=
    fun i => by ring
  simp only [e1, e2, e3, e4, e5]

/-- C1 (amended): for a MAP1 grid (gridWidth, gridDepth > 2) whose only
top-nibble-0x9 voxel lies on the north edge at offset k (1 <= k <= gridDepth-2,
element index k), and whose first-palace cell (gridWidth-1, k) is not itself a
top-nibble-0xA gate marker, `revisePalaceGraphics` writes the two fixed
north-palace codes 0xA5B5 and 0xA5B4 at (gridWidth-1, k) and (gridWidth-1, k-1)
-- the second palace voxel steps one cell along z, not along x -- and when a
top-nibble-0xA voxel exists within 8 cells along decreasing x from the first
palace voxel, both gate cells (gridWidth-1-d, k) and (gridWidth-1-d, k-1), for d
the least such distance, are rewritten to the fixed north-gate code 0xA1B3. -/
theorem C1_revisePalace_north (map1 : List Nat) (gridWidth gridDepth k : Nat)
    (hgw : 2 < gridWidth) (hgd : 2 < gridDepth)
    (hlen : map1.length = gridWidth * gridDepth)
    (hk1 : 1 ≤ k) (hk2 : k ≤ gridDepth - 2)
    (hpal : topNibble (map1.getD k 0) = 0x9)
    (huniq : ∀ j < map1.length, j ≠ k → topNibble (map1.getD j 0) ≠ 0x9)
    (hng0 : topNibble (map1Get map1 gridDepth ((gridWidth : Int) - 1) (k : Int)) ≠ 0xA) :
    map1Get (revisePalaceGraphics map1 gridWidth gridDepth) gridDepth
        ((gridWidth : Int) - 1) (k : Int) = 0xA5B5 ∧
    map1Get (revisePalaceGraphics map1 gridWidth gridDepth) gridDepth
        ((gridWidth : Int) - 1) ((k : Int) - 1) = 0xA5B4 ∧
    (∀ d0 : Nat, d0 < 8 →
      topNibble (map1Get map1 gridDepth ((gridWidth : Int) - 1 - (d0 : Int)) (k : Int)) = 0xA →
      (∀ j : Nat, j < d0 →
        topNibble (map1Get map1 gridDepth ((gridWidth : Int) - 1 - (j : Int)) (k : Int)) ≠ 0xA) →
      map1Get (revisePalaceGraphics map1 gridWidth gridDepth) gridDepth
          ((gridWidth : Int) - 1 - (d0 : Int)) (k : Int) = 0xA1B3 ∧
      map1Get (revisePalaceGraphics map1 gridWidth gridDepth) gridDepth
          ((gridWidth : Int) - 1 - (d0 : Int)) ((k : Int) - 1) = 0xA1B3) := by
  have hfind := findPalaceResult_north map1 gridWidth gridDepth k hgw hgd hlen hk1 hk2
    hpal huniq
  have hR := revisePalaceGraphics_north_eq map1 gridWidth gridDepth k hfind
  have hgwc : (gridWidth : Int) - 1 = ((gridWidth - 1 : Nat) : Int) := by omega
  have hkc : (k : Int) - 1 = ((k - 1 : Nat) : Int) := by omega
  have hMbound : (gridWidth - 1) * gridDepth + gridDepth = gridWidth * gridDepth := by
    have h2 : gridWidth - 1 + 1 = gridWidth := by omega
    calc (gridWidth - 1) * gridDepth + gridDepth
        = (gridWidth - 1 + 1) * gridDepth := by ring
      _ = gridWidth * gridDepth := by rw [h2]
  rw [hR]
  cases hg : gateDistance (fun i => decide (topNibble (map1Get map1 gridDepth
      ((gridWidth : Int) - 1 - (i : Int)) (k : Int)) = 0xA)) with
  | none =>
    simp only []
    rw [hgwc, hkc]
    simp only [map1Set_natIdx, map1Get_natIdx]
    have hlen2 : (map1.set (k + (gridWidth - 1) * gridDepth) 0xA5B5).length =
        map1.length := List.length_set map1 _ _
    refine ⟨?_, ?_, ?_⟩
    · rw [getD_set_ne _ _ _ _ _ (by omega)]
      exact getD_set_self_of_lt _ _ _ _ (by omega)
    · exact getD_set_self_of_lt _ _ _ _ (by rw [hlen2]; omega)
    · intro d0 hd08 hd0A hd0min
      exfalso
      have hsome : gateDistance (fun i => decide (topNibble (map1Get map1 gridDepth
          ((gridWidth : Int) - 1 - (i : Int)) (k : Int)) = 0xA)) = some d0 := by
        unfold gateDistance
        apply gateDistanceFrom_eq_some _ _ _ d0 (by omega) (by omega)
        · rw [decide_eq_true_eq, hgwc]
          exact hd0A
        · intro j _ hj
          rw [decide_eq_false_iff_not, hgwc]
          exact hd0min j hj
      rw [hg] at hsome
      cases hsome
  | some d =>
    have hsound := gateDistanceFrom_some_sound _ 8 0 d hg
    obtain ⟨-, hd8, hPd, hmin⟩ := hsound
    rw [decide_eq_true_eq] at hPd
    have hd1 : d ≠ 0 := by
      intro h0
      subst h0
      apply hng0
      have hz : (gridWidth : Int) - 1 - ((0 : Nat) : Int) = (gridWidth : Int) - 1 := by
        omega
      rw [hz] at hPd
      exact hPd
    have hIDXnn : 0 ≤ (k : Int) + ((gridWidth : Int) - 1 - (d : Int)) * (gridDepth : Int) := by
      by_contra hneg
      push_neg at hneg
      have hzero : map1Get map1 gridDepth ((gridWidth : Int) - 1 - (d : Int)) (k : Int) = 0 := by
        unfold map1Get
        rw [if_neg (by omega)]
      rw [hzero] at hPd
      simp [topNibble] at hPd
    have hXnn : 0 ≤ (gridWidth : Int) - 1 - (d : Int) := by
      by_contra hneg
      push_neg at hneg
      have hmul : ((gridWidth : Int) - 1 - (d : Int)) * (gridDepth : Int) ≤
          (-1) * (gridDepth : Int) := by
        apply mul_le_mul_of_nonneg_right (by omega) (by positivity)
      have hklt : (k : Int) < (gridDepth : Int) := by omega
      linarith
    have hdle : d ≤ gridWidth - 1 := by omega
    have hdcast : (gridWidth : Int) - 1 - (d : Int) = ((gridWidth - 1 - d : Nat) : Int) := by
      omega
    have hdcast2 : ((gridWidth - 1 : Nat) : Int) - (d : Int) =
        ((gridWidth - 1 - d : Nat) : Int) := by
      omega
    have hMgle : (gridWidth - 1 - d) * gridDepth + gridDepth ≤ (gridWidth - 1) * gridDepth := by
      have h1 : (gridWidth - 1 - d) + 1 ≤ gridWidth - 1 := by omega
      calc (gridWidth - 1 - d) * gridDepth + gridDepth
          = ((gridWidth - 1 - d) + 1) * gridDepth := by ring
        _ ≤ (gridWidth - 1) * gridDepth := Nat.mul_le_mul_right gridDepth h1
    simp only []
    rw [hgwc, hkc, hdcast2]
    simp only [map1Set_natIdx, map1Get_natIdx]
    have hlenA : (map1.set (k + (gridWidth - 1) * gridDepth) 0xA5B5).length =
        map1.length := List.length_set map1 _ _
    have hlenB : ((map1.set (k + (gridWidth - 1) * gridDepth) 0xA5B5).set
        (k - 1 + (gridWidth - 1) * gridDepth) 0xA5B4).length = map1.length := by
      rw [List.length_set, hlenA]
    have hlenC : (((map1.set (k + (gridWidth - 1) * gridDepth) 0xA5B5).set
        (k - 1 + (gridWidth - 1) * gridDepth) 0xA5B4).set
        (k + (gridWidth - 1 - d) * gridDepth) 0xA1B3).length = map1.length := by
      rw [List.length_set, hlenB]
    refine ⟨?_, ?_, ?_⟩
    · rw [getD_set_ne _ _ _ _ _ (by omega), getD_set_ne _ _ _ _ _ (by omega),
        getD_set_ne _ _ _ _ _ (by omega)]
      exact getD_set_self_of_lt _ _ _ _ (by omega)
    · rw [getD_set_ne _ _ _ _ _ (by omega), getD_set_ne _ _ _ _ _ (by omega)]
      exact getD_set_self_of_lt _ _ _ _ (by rw [hlenA]; omega)
    · intro d0 hd08 hd0A hd0min
      have hsome : gateDistance (fun i => decide (topNibble (map1Get map1 gridDepth
          ((gridWidth : Int) - 1 - (i : Int)) (k : Int)) = 0xA)) = some d0 := by
        unfold gateDistance
        apply gateDistanceFrom_eq_some _ _ _ d0 (by omega) (by omega)
        · rw [decide_eq_true_eq, hgwc]
          exact hd0A
        · intro j _ hj
          rw [decide_eq_false_iff_not, hgwc]
          exact hd0min j hj
      rw [hg] at hsome
      have hdd : d0 = d := by
        injection hsome with h2
        exact h2.symm
      subst hdd
      rw [hdcast2]
      simp only [map1Get_natIdx]
      constructor
      · rw [getD_set_ne _ _ _ _ _ (by omega)]
        exact getD_set_self_of_lt _ _ _ _ (by rw [hlenB]; omega)
      · exact getD_set_self_of_lt _ _ _ _ (by rw [hlenC]; omega)

/-- C1 counterexample: on the concrete 4x4 grid whose only top-nibble-0x9 marker
is on the north edge at offset k = 1 (a valid instance of the claim's hypotheses),
the revised voxel at (gridWidth-1, k) = (3, 1) does carry 0xA5B5, but the voxel at
(gridWidth-2, k) = (2, 1) stays 0, not 0xA5B4 as the claim states: the second
palace code is written at (gridWidth-1, k-1) instead. -/
theorem C1_revisePalace_north_counterexample :
    topNibble (palaceExampleMap1.getD 1 0) = 0x9 ∧
    (∀ j < 16, j ≠ 1 → topNibble (palaceExampleMap1.getD j 0) ≠ 0x9) ∧
    palaceExampleMap1.length = 4 * 4 ∧
    map1Get (revisePalaceGraphics palaceExampleMap1 4 4) 4 ((4 : Int) - 1) 1 = 0xA5B5 ∧
    map1Get (revisePalaceGraphics palaceExampleMap1 4 4) 4 ((4 : Int) - 2) 1 = 0 ∧
    ¬ map1Get (revisePalaceGraphics palaceExampleMap1 4 4) 4 ((4 : Int) - 2) 1 = 0xA5B4 := by
  decide

/-- C1 witness: the amended theorem discharged on the concrete grid with a gate
marker one step inward: palace codes at (3, 1) and (3, 0), gate code 0xA1B3 at
(2, 1) and (2, 0). -/
theorem C1_revisePalace_north_witness :
    map1Get (revisePalaceGraphics palaceExampleMap1Gate 4 4) 4
        (((4 : Nat) : Int) - 1) ((1 : Nat) : Int) = 0xA5B5 ∧
    map1Get (revisePalaceGraphics palaceExampleMap1Gate 4 4) 4
        (((4 : Nat) : Int) - 1) (((1 : Nat) : Int) - 1) = 0xA5B4 ∧
    map1Get (revisePalaceGraphics palaceExampleMap1Gate 4 4) 4
        (((4 : Nat) : Int) - 1 - ((1 : Nat) : Int)) ((1 : Nat) : Int) = 0xA1B3 ∧
    map1Get (revisePalaceGraphics palaceExampleMap1Gate 4 4) 4
        (((4 : Nat) : Int) - 1 - ((1 : Nat) : Int)) (((1 : Nat) : Int) - 1) = 0xA1B3 := by
  have h := C1_revisePalace_north palaceExampleMap1Gate 4 4 1 (by norm_num) (by norm_num)
    (by decide) (by norm_num) (by norm_num) (by decide) (by decide) (by decide)
  have hgate := h.2.2 1 (by norm_num) (by decide) (by decide)
  exact ⟨h.1, h.2.1, hgate.1, hgate.2⟩

end OTESA
